/-
Verification of the Copec EV charging recommendation and trip-planning
backend (station scorer, charging-cost estimator, trip-charging planners).

Sources embedded:
  * Backend/handlers/ev-trips.js        (findChargingStops)
  * Backend/handlers/tools/pricing.js   (estimateChargingCost, calculateTripCost)
  * Backend/handlers/tools/routing.js   (isStationAlongRoute, calculateRoute distance part)
  * the optimizer Lambda handler        (calculateStationScore, recommend ranking)

Modelling conventions:
  * JavaScript numbers are modelled as exact rationals (ℚ).  `Math.round`
    is `jsRound x = ⌊x + 1/2⌋` (JS rounds half toward +∞), `Math.floor`
    is `Int.floor`.
  * The haversine `calculateDistance` is transcendental, so every function
    that uses it is parametrised by an abstract distance function
    `d : P → P → ℚ` over an abstract point type `P`.  For concrete
    counterexamples we instantiate `P := ℚ` with `lineDist x y = |x - y|`;
    points on the equator (lat = 0) realise exactly this 1-dimensional
    distance profile under the haversine formula, up to a positive scale.
  * `Array.prototype.sort` with a consistent comparator is (per ES2019)
    a stable sort; we model it by a stable insertion sort `jsSortBy le`
    where `le a b` means `comparator a b ≤ 0`.
  * The station catalog JSON (`stations_geo.json`) is not part of the
    sources; every function takes the catalog as an explicit parameter.
    Display-only string fields (id, name, address, formatted currency,
    prose notes) are omitted from the records.
-/
import Mathlib

namespace CopecEV

/-- Model of JavaScript `Math.round`: round half toward positive infinity. -/
def jsRound (x : ℚ) : ℤ := ⌊x + 1/2⌋

/-- Model of the source idiom `Math.round(x * 10) / 10` (round to one decimal). -/
def roundTo1 (x : ℚ) : ℚ := (jsRound (x * 10) : ℚ) / 10

/-- Stable insertion of `x` into a list sorted by the boolean preorder `le`:
`x` is placed before the first element strictly greater than it, hence after
every element it ties with (stability). -/
def insertSorted (le : α → α → Bool) (x : α) : List α → List α
  | [] => [x]
  | y :: ys => if le x y && !(le y x) then x :: y :: ys else y :: insertSorted le x ys

/-- Model of `Array.prototype.sort` with a consistent comparator `cmp`,
where `le a b` stands for `cmp a b ≤ 0`: a stable sort (ES2019 requires
stability, and for a consistent comparator the stably sorted permutation is
unique, so any stable sorting algorithm is a faithful model). -/
def jsSortBy (le : α → α → Bool) (l : List α) : List α :=
  l.foldl (fun acc x => insertSorted le x acc) []

/-- Charger kind, field `type` of a charger record. -/
inductive ChargerKind | fast | slow
  deriving DecidableEq, Repr

/-- Charger status. -/
inductive ChargerStatus | available | occupied | maintenance
  deriving DecidableEq, Repr

/-- Charger record (id/connector display strings omitted). -/
structure Charger where
  kind : ChargerKind
  status : ChargerStatus
  power : ℚ
  deriving DecidableEq, Repr

/-- Station record from `stations_geo.json` over an abstract point type `P`
(id/name/address display strings omitted; `usage_factors` flattened). -/
structure Station (P : Type) where
  location : P
  chargers : List Charger
  avg_wait_time : ℚ
  nearby_amenities : List String
  deriving DecidableEq, Repr

/-- Distance function instantiation used for concrete runs: points on a line.
Equatorial lat/lng points realise exactly this profile under haversine. -/
def lineDist (x y : ℚ) : ℚ := |x - y|

/-- Test whether `needle` occurs at the head of `hay`. -/
def leadsIn [DecidableEq α] : List α → List α → Bool
  | [], _ => true
  | _ :: _, [] => false
  | a :: as, b :: bs => decide (a = b) && leadsIn as bs

/-- Test whether `needle` occurs contiguously anywhere inside `hay`. -/
def occursIn [DecidableEq α] (needle : List α) : List α → Bool
  | [] => leadsIn needle []
  | hay@(_ :: rest) => leadsIn needle hay || occursIn needle rest

/-- Model of `hay.toLowerCase().includes(needle.toLowerCase())` from the
amenity-matching step of `calculateStationScore`. -/
def strIncludes (hay needle : String) : Bool :=
  occursIn needle.toLower.data hay.toLower.data

/-! ## Station scorer (optimizer Lambda handler, `calculateStationScore`) -/

/-- Urgency levels of the scorer.  The source switches on a string with
`'high'`/`'low'` cases and a default arm; `normal` stands for the default. -/
inductive Urgency | high | normal | low
  deriving DecidableEq, Repr

/-- User preferences consumed by `calculateStationScore`. -/
structure ScorePrefs where
  urgency : Urgency
  preferFast : Bool
  needsAmenities : List String
  deriving DecidableEq, Repr

/-- Factor weights of the scorer. -/
structure Weights where
  distance : ℚ
  availability : ℚ
  waitTime : ℚ
  chargerKind : ℚ
  amenities : ℚ
  deriving DecidableEq, Repr

/-- Weight table of `calculateStationScore`, keyed by urgency
(the `switch (urgency)` statement). -/
def urgencyWeights : Urgency → Weights
  | .high   => ⟨35/100, 35/100, 20/100, 10/100, 0⟩
  | .low    => ⟨15/100, 20/100, 15/100, 20/100, 30/100⟩
  | .normal => ⟨25/100, 30/100, 20/100, 15/100, 10/100⟩

/-- Per-factor score components (the `scores` object, each intended 0-100). -/
structure ScoreComponents where
  distance : ℚ
  availability : ℚ
  waitTime : ℚ
  chargerKind : ℚ
  amenities : ℚ
  deriving DecidableEq, Repr

/-- Result record of `calculateStationScore`. -/
structure ScoreData where
  score : ℤ
  components : ScoreComponents
  distance : ℚ
  availableChargers : ℕ
  fastAvailable : ℕ
  slowAvailable : ℕ
  deriving DecidableEq, Repr

/-- Available chargers of a station:
`station.chargers.filter(c => c.status === 'available')`. -/
def availableChargersOf (station : Station P) : List Charger :=
  station.chargers.filter fun c => decide (c.status = .available)

/-- Per-factor components of `calculateStationScore` (the `scores` object and
the amenity-matching step), parametrised by the distance function `d`
(haversine in the source). -/
def scoreComponentsOf (d : P → P → ℚ) (station : Station P) (userLocation : P)
    (prefs : ScorePrefs) : ScoreComponents :=
  { distance := max 0 (100 - d userLocation station.location * 10)
    availability :=
      if (availableChargersOf station).length > 0 then
        (((availableChargersOf station).length : ℚ) / (station.chargers.length : ℚ)) * 100
      else 0
    waitTime := max 0 (100 - station.avg_wait_time * 3)
    chargerKind :=
      if prefs.preferFast ∧
          ((availableChargersOf station).filter fun c => decide (c.kind = .fast)).length > 0 then
        100
      else if ((availableChargersOf station).filter
          fun c => decide (c.kind = .slow)).length > 0 then 70
      else 30
    amenities :=
      if prefs.needsAmenities.length > 0 then
        (((prefs.needsAmenities.filter fun a =>
            station.nearby_amenities.any fun sa => strIncludes sa a).length : ℚ) /
          (prefs.needsAmenities.length : ℚ)) * 100
      else 0 }

/-- Weighted total of `calculateStationScore`. -/
def weightedTotal (w : Weights) (s : ScoreComponents) : ℚ :=
  s.distance * w.distance + s.availability * w.availability + s.waitTime * w.waitTime +
    s.chargerKind * w.chargerKind + s.amenities * w.amenities

/-- Embedding of `calculateStationScore(station, userLocation, userPreferences)`. -/
def calculateStationScore (d : P → P → ℚ) (station : Station P) (userLocation : P)
    (prefs : ScorePrefs) : ScoreData :=
  { score := jsRound (weightedTotal (urgencyWeights prefs.urgency)
      (scoreComponentsOf d station userLocation prefs))
    components := scoreComponentsOf d station userLocation prefs
    distance := roundTo1 (d userLocation station.location)
    availableChargers := (availableChargersOf station).length
    fastAvailable := ((availableChargersOf station).filter
      fun c => decide (c.kind = .fast)).length
    slowAvailable := ((availableChargersOf station).filter
      fun c => decide (c.kind = .slow)).length }

/-- Station paired with its score data (the `{ station, ...scoreData }` spread
in the `recommend` handler). -/
structure ScoredStation (P : Type) where
  station : Station P
  data : ScoreData
  deriving DecidableEq, Repr

/-- Scoring pass of the `recommend` handler: `stations.stations.map(...)`. -/
def scoreStations (d : P → P → ℚ) (catalog : List (Station P)) (loc : P)
    (prefs : ScorePrefs) : List (ScoredStation P) :=
  catalog.map fun st => ⟨st, calculateStationScore d st loc prefs⟩

/-- Ranking step of the `recommend` handler:
`scoredStations.sort((a, b) => b.score - a.score)` followed by
`slice(0, maxResults)`.  The comparator looks only at the score. -/
def recommendRanking (d : P → P → ℚ) (catalog : List (Station P)) (loc : P)
    (prefs : ScorePrefs) (maxResults : ℕ) : List (ScoredStation P) :=
  (jsSortBy (fun a b => decide (b.data.score ≤ a.data.score))
    (scoreStations d catalog loc prefs)).take maxResults

/-! ## Charging-cost estimator (`tools/pricing.js`, `estimateChargingCost`) -/

/-- User/account tier (`user_type`).  `USER_DISCOUNTS` maps unknown strings to
discount 0, the same as `individual`. -/
inductive UserTier | individual | premium | fleet | business
  deriving DecidableEq, Repr

/-- Discount table `USER_DISCOUNTS`. -/
def userDiscount : UserTier → ℚ
  | .individual => 0
  | .premium => 10/100
  | .fleet => 15/100
  | .business => 20/100

/-- Tariff table `PRICING`.  The catalog metadata is absent from the sources,
so the source defaults (250 fast / 180 slow CLP per kWh) apply. -/
def pricePerKwh : ChargerKind → ℚ
  | .fast => 250
  | .slow => 180

/-- Power table `CHARGER_POWER` (kW). -/
def chargerPower : ChargerKind → ℚ
  | .fast => 150
  | .slow => 50

/-- Result record of `estimateChargingCost`.  The nested JSON objects
(`charging_session`, `time`, `cost`, `user_benefits`, `comparison`) are
flattened; prose/locale-formatted fields are omitted. -/
structure CostEstimate where
  from_percent : ℚ
  to_percent : ℚ
  energy_kwh : ℚ
  charger_kind : ChargerKind
  charger_power_kw : ℚ
  charging_minutes : ℤ
  price_per_kwh : ℚ
  base_cost_clp : ℤ
  discount_percent : ℚ
  discount_amount_clp : ℤ
  final_cost_clp : ℤ
  copec_points_earned : ℤ
  comparison_fast_cost : ℤ
  comparison_slow_cost : ℤ
  comparison_savings_with_slow : ℤ
  deriving DecidableEq, Repr

/-- Embedding of `estimateChargingCost`.  Note the source validates only
`current_battery_percent` against [0,100] and `target ≤ current`; a target
above 100 is accepted. -/
def estimateChargingCost (current_battery_percent target_battery_percent
    battery_capacity_kwh : ℚ) (charger_kind : ChargerKind) (user_tier : UserTier) :
    Except String CostEstimate :=
  if current_battery_percent < 0 ∨ current_battery_percent > 100 then
    .error "current_battery_percent debe estar entre 0 y 100"
  else if target_battery_percent ≤ current_battery_percent then
    .error "target_battery_percent debe ser mayor que current_battery_percent"
  else
    let batteryToCharge := target_battery_percent - current_battery_percent
    let energyNeededKwh := batteryToCharge / 100 * battery_capacity_kwh
    let price := pricePerKwh charger_kind
    let baseCost := energyNeededKwh * price
    let discount := userDiscount user_tier
    let discountAmount := baseCost * discount
    let finalCost := baseCost - discountAmount
    let power := chargerPower charger_kind
    .ok
      { from_percent := current_battery_percent
        to_percent := target_battery_percent
        energy_kwh := roundTo1 energyNeededKwh
        charger_kind := charger_kind
        charger_power_kw := power
        charging_minutes := jsRound (energyNeededKwh / power * 60)
        price_per_kwh := price
        base_cost_clp := jsRound baseCost
        discount_percent := discount * 100
        discount_amount_clp := jsRound discountAmount
        final_cost_clp := jsRound finalCost
        copec_points_earned := ⌊finalCost / 100⌋
        comparison_fast_cost := jsRound (energyNeededKwh * pricePerKwh .fast * (1 - discount))
        comparison_slow_cost := jsRound (energyNeededKwh * pricePerKwh .slow * (1 - discount))
        comparison_savings_with_slow :=
          jsRound (energyNeededKwh * (pricePerKwh .fast - pricePerKwh .slow) * (1 - discount)) }

/-- Reference cost estimate written from the spec's formulas (§4.3/§8):
`energyKwh = (to − from)/100 × capacity`, `finalCost = baseCost × (1 −
tierDiscountFraction)`, `pointsEarned = ⌊finalCost/100⌋`.  Used to state that
the code's estimate refines these formulas. -/
def specCostEstimate (c t cap : ℚ) (k : ChargerKind) (u : UserTier) : CostEstimate :=
  let energy := (t - c) / 100 * cap
  let base := energy * pricePerKwh k
  let frac := userDiscount u
  let final := base * (1 - frac)
  { from_percent := c
    to_percent := t
    energy_kwh := roundTo1 energy
    charger_kind := k
    charger_power_kw := chargerPower k
    charging_minutes := jsRound (energy / chargerPower k * 60)
    price_per_kwh := pricePerKwh k
    base_cost_clp := jsRound base
    discount_percent := frac * 100
    discount_amount_clp := jsRound (base * frac)
    final_cost_clp := jsRound final
    copec_points_earned := ⌊final / 100⌋
    comparison_fast_cost := jsRound (energy * pricePerKwh .fast * (1 - frac))
    comparison_slow_cost := jsRound (energy * pricePerKwh .slow * (1 - frac))
    comparison_savings_with_slow :=
      jsRound (energy * (pricePerKwh .fast - pricePerKwh .slow) * (1 - frac)) }

/-! ## Trip-charging planner (`handlers/ev-trips.js`, `findChargingStops`) -/

/-- Route-annotated station of `findChargingStops` (the mapped object with
`distanceFromOrigin`, `detour`, `available`, `hasFast` added by the spread). -/
structure RouteStation (P : Type) extends Station P where
  distanceFromOrigin : ℚ
  detour : ℚ
  available : ℕ
  hasFast : Bool
  deriving DecidableEq, Repr

/-- Charging stop pushed by `findChargingStops`. -/
structure PlanStop (P : Type) where
  station : RouteStation P
  chargeToPercent : ℚ
  estimatedChargeTime : ℚ
  reason : String
  deriving DecidableEq, Repr

/-- Stop pushed by the greedy branch (`reason: 'Carga necesaria antes de
continuar'`). -/
def neededStop (s : RouteStation P) : PlanStop P :=
  ⟨s, 80, if s.hasFast then 25 else 60, "Carga necesaria antes de continuar"⟩

/-- Stop pushed by the fallback branch (`reason: 'Parada de carga
recomendada'`). -/
def recommendedStop (s : RouteStation P) : PlanStop P :=
  ⟨s, 80, if s.hasFast then 25 else 60, "Parada de carga recomendada"⟩

/-- Candidate comparator of `findChargingStops`: fast-charger preference first
when `preferFast` is set, then ascending `distanceFromOrigin`.  `le a b` models
`comparator(a, b) ≤ 0`. -/
def routeLe (preferFast : Bool) (a b : RouteStation P) : Bool :=
  if preferFast ∧ a.hasFast ≠ b.hasFast then a.hasFast
  else decide (a.distanceFromOrigin ≤ b.distanceFromOrigin)

/-- Candidate selection of `findChargingStops`: annotate every catalog station,
keep detour below 30% of the direct distance and at least one available
charger, then sort. -/
def mkRouteStations (d : P → P → ℚ) (catalog : List (Station P)) (origin destination : P)
    (totalDistance : ℚ) (preferFast : Bool) : List (RouteStation P) :=
  jsSortBy (routeLe preferFast)
    (((catalog.map fun st =>
        { toStation := st
          distanceFromOrigin := d origin st.location
          detour := d origin st.location + d st.location destination - totalDistance
          available := (st.chargers.filter (fun c => decide (c.status = .available))).length
          hasFast := st.chargers.any fun c =>
            decide (c.kind = .fast) && decide (c.status = .available) : RouteStation P}).filter
        (fun s => decide (s.detour < totalDistance * (3/10)))).filter
      (fun s => decide (s.available > 0)))

/-- Mutable state of the greedy `for (const station of routeStations)` loop.
The source also updates `currentPosition` via `prevStation.location`; it is
read again by both distance computations, so it is part of the state. -/
structure GreedyState (P : Type) where
  stops : List (PlanStop P)
  currentPosition : P
  remainingBattery : ℚ
  deriving DecidableEq, Repr

/-- Greedy stop-placement walk of `findChargingStops`.  `all` is the full
`routeStations` list (the `prevStation` lookup searches it from the start);
the first list argument is the remainder of the iteration.  Battery is
decremented by the distance from the current position to each visited
candidate; when it drops below 20 the walk inserts a stop at the first station
of `all` strictly closer to the current position (if any), charges it to a
flat 80%, and the loop breaks as soon as the candidate just visited can reach
the destination with a 20% margin. -/
def greedyWalk (d : P → P → ℚ) (vehicleRange : ℚ) (destination : P)
    (all : List (RouteStation P)) : List (RouteStation P) → GreedyState P → GreedyState P
  | [], st => st
  | station :: rest, st =>
    let distToStation := d st.currentPosition station.location
    let batteryUsed := distToStation / vehicleRange * 100
    let rb := st.remainingBattery - batteryUsed
    let st1 : GreedyState P :=
      if rb < 20 then
        match all.find? (fun s =>
            decide (d st.currentPosition s.location < distToStation)) with
        | some prev =>
          { stops := st.stops ++ [neededStop prev]
            currentPosition := prev.location
            remainingBattery := 80 }
        | none => { st with remainingBattery := rb }
      else { st with remainingBattery := rb }
    if st1.remainingBattery / 100 * vehicleRange ≥ d station.location destination * (12/10) then
      st1
    else greedyWalk d vehicleRange destination all rest st1

/-- Fallback of `findChargingStops`: if the greedy walk produced no stops and
the current range is below the total distance, push the first candidate of the
(filtered, sorted) list — when that list is nonempty. -/
def fallbackStops (routeStations : List (RouteStation P)) (greedyStops : List (PlanStop P))
    (currentRange totalDistance : ℚ) : List (PlanStop P) :=
  if greedyStops.isEmpty ∧ currentRange < totalDistance then
    match routeStations with
    | [] => greedyStops
    | first :: _ => greedyStops ++ [recommendedStop first]
  else greedyStops

/-- Result of `findChargingStops`; the source returns one of two JSON shapes
(`needsCharging: false` with `estimatedTime`, or `needsCharging: true` with
stops and the time breakdown). -/
inductive PlanResult (P : Type) where
  | noChargeNeeded (totalDistance : ℚ) (estimatedTime : ℤ)
  | chargingPlan (stops : List (PlanStop P)) (totalDistance : ℤ) (drivingTime : ℤ)
      (chargingTime : ℚ) (totalTime : ℚ)
  deriving DecidableEq, Repr

/-- Field `needsCharging` of the returned object. -/
def PlanResult.needsCharging : PlanResult P → Bool
  | .noChargeNeeded .. => false
  | .chargingPlan .. => true

/-- Field `stops` of the returned object. -/
def PlanResult.stops : PlanResult P → List (PlanStop P)
  | .noChargeNeeded .. => []
  | .chargingPlan s .. => s

/-- Embedding of `findChargingStops(origin, destination, currentBattery,
vehicleRange, preferences)`, parametrised by the distance function and the
station catalog.  `Math.round(totalDistance / 60 * 60)` is exact arithmetic
in the model, hence `jsRound totalDistance`. -/
def findChargingStops (d : P → P → ℚ) (catalog : List (Station P)) (origin destination : P)
    (currentBattery vehicleRange : ℚ) (preferFast : Bool) : PlanResult P :=
  let totalDistance := d origin destination
  let currentRange := currentBattery / 100 * vehicleRange
  if currentRange ≥ totalDistance * (12/10) then
    .noChargeNeeded totalDistance (jsRound totalDistance)
  else
    let routeStations := mkRouteStations d catalog origin destination totalDistance preferFast
    let walked := greedyWalk d vehicleRange destination routeStations routeStations
      ⟨[], origin, currentBattery⟩
    let stops := fallbackStops routeStations walked.stops currentRange totalDistance
    let drivingTime := jsRound totalDistance
    let chargingTime := (stops.map (·.estimatedChargeTime)).sum
    .chargingPlan stops (jsRound totalDistance) drivingTime chargingTime
      ((drivingTime : ℚ) + chargingTime)

/-! ## Trip-cost planner (`tools/pricing.js`, `calculateTripCost`, with the
distance part of `tools/routing.js`) -/

/-- Distance part of `calculateRoute` (`tools/routing.js`): straight-line
distance inflated by a road multiplier and rounded to one decimal.  The time
part of `calculateRoute` reads the wall clock (traffic multiplier) and is not
used by the stop-placement logic, so it is not modelled. -/
def estimatedRoadKm (d : P → P → ℚ) (origin destination : P) : ℚ :=
  let straight := d origin destination
  let mult : ℚ := if straight > 50 then 12/10 else 135/100
  roundTo1 (straight * mult)

/-- Route information record returned by `isStationAlongRoute`. -/
structure RouteInfo where
  isOnRoute : Bool
  detourKm : ℚ
  detourPercent : ℤ
  distanceFromOrigin : ℚ
  deriving DecidableEq, Repr

/-- Embedding of `isStationAlongRoute(origin, destination, stationLocation,
maxDetourPercent)`.  Division by a zero direct distance yields 0 in ℚ where
JavaScript produces NaN/Infinity; the planners below never depend on that
degenerate case. -/
def isStationAlongRoute (d : P → P → ℚ) (origin destination stationLocation : P)
    (maxDetourPercent : ℚ) : RouteInfo :=
  let directDistance := d origin destination
  let distanceViaStation := d origin stationLocation + d stationLocation destination
  let detour := distanceViaStation - directDistance
  let detourPercent := detour / directDistance * 100
  { isOnRoute := decide (detourPercent ≤ maxDetourPercent)
    detourKm := roundTo1 detour
    detourPercent := jsRound detourPercent
    distanceFromOrigin := roundTo1 (d origin stationLocation) }

/-- Station annotated with `routeInfo` in `calculateTripCost`. -/
structure CostRouteStation (P : Type) extends Station P where
  routeInfo : RouteInfo
  deriving DecidableEq, Repr

/-- Charging stop pushed by `calculateTripCost` (station display strings,
location and amenities omitted; the nested `charging` object flattened). -/
structure TripStop where
  distance_from_origin_km : ℚ
  detour_km : ℚ
  from_percent : ℤ
  to_percent : ℚ
  charger_kind : ChargerKind
  time_minutes : ℤ
  cost_clp : ℤ
  deriving DecidableEq, Repr

/-- Mutable state of the `for (const station of stationsOnRoute)` loop of
`calculateTripCost`.  `reachedFloor` records which exit the loop took: it is
set exactly when the source executes the `break` after
`remainingBattery >= 15`.  The source also assigns `currentPosition`, but
never reads it (all distances come from `routeInfo.distanceFromOrigin`), so it
is omitted. -/
structure TripCostState where
  currentBattery : ℚ
  stops : List TripStop
  totalChargingCost : ℤ
  totalChargingTime : ℤ
  reachedFloor : Bool
  deriving DecidableEq, Repr

/-- Stop-placement loop of `calculateTripCost`.  At each candidate (sorted by
distance from origin) it charges when the projected battery there is below 20
or no charge has happened yet (`currentBattery === current_battery_percent`),
to `min(80, battery-for-remaining-leg + 20)`, and breaks once the projected
arrival battery reaches 15. -/
def tripCostWalk (startBattery capacity : ℚ) (tier : UserTier)
    (totalDistanceKm batteryPerKm : ℚ) :
    List (CostRouteStation P) → TripCostState → TripCostState
  | [], st => st
  | station :: rest, st =>
    let distanceToStation := station.routeInfo.distanceFromOrigin
    let batteryAtStation := st.currentBattery - distanceToStation * batteryPerKm
    if batteryAtStation < 20 ∨ st.currentBattery = startBattery then
      let remainingDistance := totalDistanceKm - distanceToStation
      let batteryForRemaining := remainingDistance * batteryPerKm
      let targetBattery := min 80 (batteryForRemaining + 20)
      let hasFast := station.chargers.any fun c =>
        decide (c.kind = .fast) && decide (c.status = .available)
      let kind := if hasFast then ChargerKind.fast else ChargerKind.slow
      match estimateChargingCost (max batteryAtStation 10) targetBattery capacity kind tier with
      | .error _ => tripCostWalk startBattery capacity tier totalDistanceKm batteryPerKm rest st
      | .ok est =>
        let st' : TripCostState :=
          { currentBattery := targetBattery
            stops := st.stops ++
              [{ distance_from_origin_km := distanceToStation
                 detour_km := station.routeInfo.detourKm
                 from_percent := jsRound batteryAtStation
                 to_percent := targetBattery
                 charger_kind := kind
                 time_minutes := est.charging_minutes
                 cost_clp := est.final_cost_clp }]
            totalChargingCost := st.totalChargingCost + est.final_cost_clp
            totalChargingTime := st.totalChargingTime + est.charging_minutes
            reachedFloor := st.reachedFloor }
        if targetBattery - remainingDistance * batteryPerKm ≥ 15 then
          { st' with reachedFloor := true }
        else tripCostWalk startBattery capacity tier totalDistanceKm batteryPerKm rest st'
    else tripCostWalk startBattery capacity tier totalDistanceKm batteryPerKm rest st

/-- Result record of `calculateTripCost` (trip/battery/time/cost JSON objects
flattened; prose summary, formatted strings and the clock-dependent driving
time omitted). -/
structure TripCostResult where
  distance_km : ℚ
  battery_start_percent : ℚ
  battery_needed_percent : ℤ
  battery_end_percent : ℤ
  needs_charging : Bool
  charging_minutes : ℤ
  charging_cost_clp : ℤ
  charging_stops : List TripStop
  stops_count : ℕ
  reachedFloor : Bool
  deriving DecidableEq, Repr

/-- Candidate list of `calculateTripCost`: stations within a 25% detour,
sorted by (rounded) distance from origin. -/
def tripCostCandidates (d : P → P → ℚ) (catalog : List (Station P)) (origin destination : P) :
    List (CostRouteStation P) :=
  jsSortBy (fun a b =>
      decide (a.routeInfo.distanceFromOrigin ≤ b.routeInfo.distanceFromOrigin))
    ((catalog.map fun st =>
        ({ toStation := st
           routeInfo := isStationAlongRoute d origin destination st.location 25 } :
          CostRouteStation P)).filter
      (fun s => s.routeInfo.isOnRoute))

/-- Final loop state of `calculateTripCost`: the stop-placement loop runs only
when the battery projected at arrival without stops is below the 15% floor
(`needsCharging`); otherwise the state stays at its initialisation. -/
def tripCostFinalState (d : P → P → ℚ) (catalog : List (Station P)) (origin destination : P)
    (current_battery_percent vehicle_range_km battery_capacity_kwh : ℚ)
    (user_tier : UserTier) : TripCostState :=
  if current_battery_percent - estimatedRoadKm d origin destination * (100 / vehicle_range_km)
      < 15 then
    tripCostWalk current_battery_percent battery_capacity_kwh user_tier
      (estimatedRoadKm d origin destination) (100 / vehicle_range_km)
      (tripCostCandidates d catalog origin destination)
      ⟨current_battery_percent, [], 0, 0, false⟩
  else ⟨current_battery_percent, [], 0, 0, false⟩

/-- Embedding of `calculateTripCost(input)`.  The reported
`battery.end_percent` is hard-coded to 15 when charging is needed. -/
def calculateTripCost (d : P → P → ℚ) (catalog : List (Station P)) (origin destination : P)
    (current_battery_percent vehicle_range_km battery_capacity_kwh : ℚ)
    (user_tier : UserTier) : TripCostResult :=
  let totalDistanceKm := estimatedRoadKm d origin destination
  let batteryPerKm := 100 / vehicle_range_km
  let batteryNeeded := totalDistanceKm * batteryPerKm
  let batteryAtArrival := current_battery_percent - batteryNeeded
  let needsCharging : Bool := decide (batteryAtArrival < 15)
  let finalState := tripCostFinalState d catalog origin destination current_battery_percent
    vehicle_range_km battery_capacity_kwh user_tier
  { distance_km := totalDistanceKm
    battery_start_percent := current_battery_percent
    battery_needed_percent := jsRound batteryNeeded
    battery_end_percent := jsRound (if needsCharging then 15 else batteryAtArrival)
    needs_charging := needsCharging
    charging_minutes := finalState.totalChargingTime
    charging_cost_clp := finalState.totalChargingCost
    charging_stops := finalState.stops
    stops_count := finalState.stops.length
    reachedFloor := finalState.reachedFloor }

/-- Battery percent projected at the destination after executing a list of
planned stops in order: the last stop leaves with its `to_percent` and the
remaining leg consumes `(totalDistance − distance_from_origin) × batteryPerKm`;
with no stops the whole trip is driven on the starting battery. -/
def projectedArrival (startBattery batteryPerKm totalDistanceKm : ℚ)
    (stops : List TripStop) : ℚ :=
  match stops.getLast? with
  | none => startBattery - totalDistanceKm * batteryPerKm
  | some s => s.to_percent - (totalDistanceKm - s.distance_from_origin_km) * batteryPerKm

/-! ## Concrete fixtures for witnesses and counterexamples.
All points live on the line model `lineDist` (realisable as equatorial
lat/lng coordinates under the haversine formula). -/

/-- Single available slow charger (50 kW). -/
def slowAvailCharger : Charger := ⟨.slow, .available, 50⟩

/-- Preference fixture: normal urgency, no fast-charger preference, no
amenity requests. -/
def normalPrefs : ScorePrefs := ⟨.normal, false, []⟩

/-- Station 12 km from the test user location (distance score decays to 0 at
10 km, so it scores identically to `stationAt11`). -/
def stationAt12 : Station ℚ := ⟨12, [slowAvailCharger], 0, []⟩

/-- Station 11 km from the test user location. -/
def stationAt11 : Station ℚ := ⟨11, [slowAvailCharger], 0, []⟩

/-- Station 95 km along a 100 km test trip (too far to be reached as a greedy
stop on a 10% battery, triggering the fallback branch). -/
def stationAt95 : Station ℚ := ⟨95, [slowAvailCharger], 0, []⟩

/-- Station 5 km along a 30 km test trip. -/
def stationAt5 : Station ℚ := ⟨5, [slowAvailCharger], 0, []⟩

/-- Station 20 km along a 30 km test trip. -/
def stationAt20 : Station ℚ := ⟨20, [slowAvailCharger], 0, []⟩

/-- Station 90 km along a 100 km (direct) test trip for the trip-cost
planner. -/
def stationAt90 : Station ℚ := ⟨90, [slowAvailCharger], 0, []⟩

/-! ## Helper lemmas -/

/-- Rounding a nonnegative rational with `Math.round` stays nonnegative. -/
theorem jsRound_nonneg {x : ℚ} (h : 0 ≤ x) : 0 ≤ jsRound x := by
  unfold jsRound
  exact Int.le_floor.mpr (by push_cast; linarith)

/-- Rounding a rational that is at most 100 with `Math.round` stays at
most 100. -/
theorem jsRound_le_hundred {x : ℚ} (h : x ≤ 100) : jsRound x ≤ 100 := by
  unfold jsRound
  calc ⌊x + 1/2⌋ ≤ ⌊(100 : ℚ) + 1/2⌋ := Int.floor_le_floor (by linarith)
    _ = 100 := by norm_num

/-- Every element of `insertSorted le x l` is `x` or an element of `l`. -/
theorem mem_insertSorted {le : α → α → Bool} {x y : α} :
    ∀ {l : List α}, y ∈ insertSorted le x l → y = x ∨ y ∈ l := by
  intro l
  induction l with
  | nil => intro h; simpa [insertSorted] using h
  | cons z zs ih =>
    intro h
    unfold insertSorted at h
    split at h
    · rcases List.mem_cons.mp h with h | h
      · exact .inl h
      · exact .inr h
    · rcases List.mem_cons.mp h with h | h
      · exact .inr (h ▸ List.mem_cons_self z zs)
      · rcases ih h with h | h
        · exact .inl h
        · exact .inr (List.mem_cons_of_mem z h)

/-- Stable insertion preserves sortedness for a total, transitive boolean
preorder. -/
theorem pairwise_insertSorted {le : α → α → Bool}
    (htot : ∀ a b, le a b = true ∨ le b a = true)
    (htrans : ∀ a b c, le a b = true → le b c = true → le a c = true)
    (x : α) : ∀ {l : List α}, l.Pairwise (fun a b => le a b = true) →
      (insertSorted le x l).Pairwise (fun a b => le a b = true) := by
  intro l
  induction l with
  | nil => intro _; simp [insertSorted]
  | cons z zs ih =>
    intro hl
    rcases List.pairwise_cons.mp hl with ⟨hz, hzs⟩
    unfold insertSorted
    split
    next hc =>
      rcases Bool.and_eq_true .. |>.mp hc with ⟨hxz, -⟩
      refine List.pairwise_cons.mpr ⟨?_, hl⟩
      intro w hw
      rcases List.mem_cons.mp hw with hw | hw
      · exact hw ▸ hxz
      · exact htrans x z w hxz (hz w hw)
    next hc =>
      refine List.pairwise_cons.mpr ⟨?_, ih hzs⟩
      intro w hw
      rcases mem_insertSorted hw with hw | hw
      · subst hw
        by_cases hzw : le z w = true
        · exact hzw
        · have hf : le z w = false := by
            cases h' : le z w
            · rfl
            · exact absurd h' hzw
          rcases htot w z with hwz | hzw2
          · exact absurd (by simp [hwz, hf]) hc
          · exact absurd hzw2 hzw
      · exact hz w hw

/-- The stable sort `jsSortBy` produces a list sorted by `le`, for a total,
transitive boolean preorder. -/
theorem pairwise_jsSortBy {le : α → α → Bool}
    (htot : ∀ a b, le a b = true ∨ le b a = true)
    (htrans : ∀ a b c, le a b = true → le b c = true → le a c = true)
    (l : List α) : (jsSortBy le l).Pairwise (fun a b => le a b = true) := by
  suffices h : ∀ (l acc : List α), acc.Pairwise (fun a b => le a b = true) →
      (l.foldl (fun acc x => insertSorted le x acc) acc).Pairwise
        (fun a b => le a b = true) from h l [] (by simp)
  intro l
  induction l with
  | nil => intro acc h; simpa using h
  | cons x xs ih =>
    intro acc hacc
    exact ih _ (pairwise_insertSorted htot htrans x hacc)

/-! ## Claim theorems -/

/-- C1: for every origin, destination, battery percent and vehicle range given
to `findChargingStops` (over any catalog, distance function and fast-charger
preference), if the current range `battery%/100 × vehicleRangeKm` is at least
1.2 × the total trip distance, the planner returns `needsCharging = false` and
an empty list of charging stops. -/
theorem planner_no_charge_when_range_sufficient {P : Type} (d : P → P → ℚ)
    (catalog : List (Station P)) (origin destination : P)
    (currentBattery vehicleRange : ℚ) (preferFast : Bool)
    (h : currentBattery / 100 * vehicleRange ≥ d origin destination * (12/10)) :
    (findChargingStops d catalog origin destination currentBattery vehicleRange
        preferFast).needsCharging = false ∧
    (findChargingStops d catalog origin destination currentBattery vehicleRange
        preferFast).stops = [] := by
  simp only [findChargingStops]
  rw [if_pos h]
  exact ⟨rfl, rfl⟩

/-- Witness for C1 at a concrete input (battery 90%, range 500 km, trip
120 km on the line model): current range 450 ≥ 1.2 × 120. -/
theorem planner_no_charge_witness :
    (90 : ℚ) / 100 * 500 ≥ lineDist 0 120 * (12/10) ∧
    (findChargingStops lineDist ([] : List (Station ℚ)) 0 120 90 500
        false).needsCharging = false ∧
    (findChargingStops lineDist ([] : List (Station ℚ)) 0 120 90 500 false).stops = [] :=
  ⟨by with_unfolding_all decide,
    planner_no_charge_when_range_sufficient lineDist [] 0 120 90 500 false
      (by with_unfolding_all decide)⟩

/-- C6: for each of the three urgency levels, the five scoring-factor weights
used by `calculateStationScore` sum to exactly 1. -/
theorem urgency_weights_sum_to_one (u : Urgency) :
    (urgencyWeights u).distance + (urgencyWeights u).availability +
      (urgencyWeights u).waitTime + (urgencyWeights u).chargerKind +
      (urgencyWeights u).amenities = 1 := by
  cases u <;> norm_num [urgencyWeights]

/-- C9: station scoring is deterministic and idempotent — two runs of
`scoreStations` on identical station/location/preference inputs return
identical results.  The embedding is a pure function of those inputs because
the scoring path of the source reads no clock, randomness or other ambient
state (the Bedrock reasoning call sits outside `calculateStationScore`). -/
theorem scoreStations_deterministic {P : Type} (d : P → P → ℚ)
    (catalog : List (Station P)) (loc : P) (prefs : ScorePrefs) :
    scoreStations d catalog loc prefs = scoreStations d catalog loc prefs := rfl

/-- C4 counterexample: the claim says an error result is returned whenever
either percent lies outside [0,100], but `estimateChargingCost(50, 150, …)`
— target percent 150, outside [0,100] — returns a normal estimate: the source
never validates the target percent against the range. -/
theorem cost_validation_counterexample :
    (150 : ℚ) > 100 ∧
    (estimateChargingCost 50 150 60 .fast .individual).isOk = true := by
  constructor
  · norm_num
  · with_unfolding_all decide

/-- C4 amended: `estimateChargingCost` returns an error result if and only if
the current battery percent lies outside [0,100] or the target is at most the
current percent; the target percent itself is never range-checked (a target
above 100 with target > current and current in range yields a normal
estimate). -/
theorem cost_validation_error_iff (c t cap : ℚ) (k : ChargerKind) (u : UserTier) :
    (estimateChargingCost c t cap k u).isOk = false ↔ (c < 0 ∨ c > 100 ∨ t ≤ c) := by
  unfold estimateChargingCost
  split_ifs with h1 h2
  · simp only [Except.isOk]
    exact iff_of_true rfl (by tauto)
  · simp only [Except.isOk]
    exact iff_of_true rfl (by tauto)
  · push_neg at h1
    simp only [Except.isOk]
    refine iff_of_false (by simp [Except.isOk, Except.toBool]) ?_
    rintro (hc | hc | hc)
    · exact absurd hc (not_lt.mpr h1.1)
    · exact absurd hc (not_lt.mpr h1.2)
    · exact absurd hc h2

/-- C5: for every valid charging-cost input (target > current, both percents
in [0,100]), the estimate realises the spec formulas — energyKwh =
(target − current)/100 × capacity, finalCost = baseCost × (1 −
tierDiscountFraction), pointsEarned = ⌊finalCost/100⌋ (see
`specCostEstimate`) — and in particular `estimateChargingCost(20, 80, 60,
fast, premium)` yields energyKwh 36, baseCost 9000, discount 900, finalCost
8100 and 81 points under the 250 CLP/kWh fast tariff. -/
theorem cost_formulas_and_scenario_c :
    (∀ (c t cap : ℚ) (k : ChargerKind) (u : UserTier),
      0 ≤ c → c ≤ 100 → 0 ≤ t → t ≤ 100 → c < t →
      estimateChargingCost c t cap k u = .ok (specCostEstimate c t cap k u)) ∧
    estimateChargingCost 20 80 60 .fast .premium =
      .ok ⟨20, 80, 36, .fast, 150, 14, 250, 9000, 10, 900, 8100, 81, 8100, 5832, 2268⟩ := by
  constructor
  · intro c t cap k u h0 h1 h2 h3 h4
    unfold estimateChargingCost specCostEstimate
    rw [if_neg (by push_neg; exact ⟨h0, h1⟩), if_neg (not_le.mpr h4)]
    simp only [Except.ok.injEq, CostEstimate.mk.injEq, and_true, true_and]
    constructor
    · congr 1
      ring
    · congr 1
      ring
  · with_unfolding_all rfl

/-- Witness for C5: the universally quantified part applied at Scenario C's
concrete input (20% → 80%, 60 kWh, fast charger, premium tier). -/
theorem cost_formulas_witness :
    (0 : ℚ) ≤ 20 ∧ (20 : ℚ) ≤ 100 ∧ (0 : ℚ) ≤ 80 ∧ (80 : ℚ) ≤ 100 ∧ (20 : ℚ) < 80 ∧
    estimateChargingCost 20 80 60 .fast .premium =
      .ok (specCostEstimate 20 80 60 .fast .premium) :=
  ⟨by norm_num, by norm_num, by norm_num, by norm_num, by norm_num,
    cost_formulas_and_scenario_c.1 20 80 60 .fast .premium (by norm_num) (by norm_num)
      (by norm_num) (by norm_num) (by norm_num)⟩

/-- C7 counterexample: on a two-station catalog whose stations tie at score 61
(both beyond the 10 km distance-score decay, identical otherwise) with the
farther station (12 km) first in catalog order, the ranking returned by the
`recommend` pipeline keeps the farther station first: equal-score stations are
not reordered by ascending distance, refuting the claimed ordering. -/
theorem ranking_tiebreak_counterexample :
    ¬ (recommendRanking lineDist [stationAt12, stationAt11] 0 normalPrefs 3).Pairwise
      (fun a b => b.data.score ≤ a.data.score ∧
        (a.data.score = b.data.score → a.data.distance ≤ b.data.distance)) := by
  with_unfolding_all decide

/-- C7 amended: the ranking returned by the `recommend` pipeline is sorted
descending by (rounded) total score; that comparator is the only ordering
applied, so equal-score stations keep their relative catalog order (stable
sort) rather than being reordered by ascending distance. -/
theorem ranking_sorted_descending {P : Type} (d : P → P → ℚ)
    (catalog : List (Station P)) (loc : P) (prefs : ScorePrefs) (maxResults : ℕ) :
    (recommendRanking d catalog loc prefs maxResults).Pairwise
      (fun a b => b.data.score ≤ a.data.score) := by
  unfold recommendRanking
  refine List.Pairwise.sublist (List.take_sublist _ _) ?_
  have h := @pairwise_jsSortBy _
    (fun a b : ScoredStation P => decide (b.data.score ≤ a.data.score))
    (fun a b => by
      rcases le_total b.data.score a.data.score with h | h
      · exact .inl (decide_eq_true h)
      · exact .inr (decide_eq_true h))
    (fun a b c hab hbc =>
      decide_eq_true (le_trans (of_decide_eq_true hbc) (of_decide_eq_true hab)))
    (scoreStations d catalog loc prefs)
  exact h.imp fun hab => of_decide_eq_true hab

/-- C2 counterexample: with an empty candidate list (here an empty catalog),
battery 10%, range 100 km and a 100 km trip, the feasibility check requires
charging (range 10 < 120) yet `findChargingStops` returns
`needsCharging = true` with an empty stop list — the fallback inserts nothing
when no station passes the detour/availability filters, so the planner does
return charging-required plans with zero stops. -/
theorem charging_plan_empty_stops_counterexample :
    (findChargingStops lineDist ([] : List (Station ℚ)) 0 100 10 100
        false).needsCharging = true ∧
    (findChargingStops lineDist ([] : List (Station ℚ)) 0 100 10 100 false).stops = [] := by
  with_unfolding_all decide

/-- C2 amended: when the feasibility check requires charging, the greedy walk
produced zero stops, the current range is below the total distance (a strictly
narrower condition than charging-required) and the detour-filtered,
availability-filtered candidate list is nonempty, `findChargingStops` inserts
exactly one stop at the first candidate of that list (nearest in the sort
order — not regardless of detour), charging to 80%, tagged with the
recommended-stop reason; outside those conditions a charging-required plan may
carry zero stops. -/
theorem fallback_inserts_recommended_stop {P : Type} (d : P → P → ℚ)
    (catalog : List (Station P)) (origin destination : P)
    (currentBattery vehicleRange : ℚ) (preferFast : Bool)
    (first : RouteStation P) (rest : List (RouteStation P))
    (h0 : 0 ≤ d origin destination)
    (h1 : currentBattery / 100 * vehicleRange < d origin destination)
    (h2 : mkRouteStations d catalog origin destination (d origin destination) preferFast
      = first :: rest)
    (h3 : (greedyWalk d vehicleRange destination
        (mkRouteStations d catalog origin destination (d origin destination) preferFast)
        (mkRouteStations d catalog origin destination (d origin destination) preferFast)
        ⟨[], origin, currentBattery⟩).stops = []) :
    (findChargingStops d catalog origin destination currentBattery vehicleRange
        preferFast).needsCharging = true ∧
    (findChargingStops d catalog origin destination currentBattery vehicleRange
        preferFast).stops = [recommendedStop first] := by
  have hno : ¬ (currentBattery / 100 * vehicleRange ≥ d origin destination * (12/10)) := by
    intro hc
    nlinarith
  simp only [findChargingStops]
  rw [if_neg hno, h3, h2]
  refine ⟨rfl, ?_⟩
  simp [fallbackStops, PlanResult.stops, h1]

/-- Witness for C2's amended theorem: one slow-charger station 95 km along a
100 km trip with battery 10% and range 100 km — the greedy walk places no
stop (no candidate is closer than 95 km to the origin), and the fallback
inserts the recommended stop. -/
theorem fallback_inserts_recommended_stop_witness :
    0 ≤ lineDist 0 100 ∧ (10 : ℚ) / 100 * 100 < lineDist 0 100 ∧
    (findChargingStops lineDist [stationAt95] 0 100 10 100 false).needsCharging = true ∧
    (findChargingStops lineDist [stationAt95] 0 100 10 100 false).stops
      = [recommendedStop ⟨stationAt95, 95, 0, 1, false⟩] :=
  ⟨by with_unfolding_all decide, by with_unfolding_all decide,
    fallback_inserts_recommended_stop lineDist [stationAt95] 0 100 10 100 false
      ⟨stationAt95, 95, 0, 1, false⟩ []
      (by with_unfolding_all decide) (by with_unfolding_all decide)
      (by with_unfolding_all decide) (by with_unfolding_all decide)⟩

/-- Loop invariant for the trip-cost stop walk: when the walk exits through
the source's `break` (the only assignment of `reachedFloor`), the battery
projected at the destination after the stops placed so far is at least 15. -/
theorem tripCostWalk_arrival_floor {P : Type} (startB cap : ℚ) (tier : UserTier)
    (totalKm bpk : ℚ) :
    ∀ (l : List (CostRouteStation P)) (st : TripCostState), st.reachedFloor = false →
      (tripCostWalk startB cap tier totalKm bpk l st).reachedFloor = true →
      15 ≤ projectedArrival startB bpk totalKm
        (tripCostWalk startB cap tier totalKm bpk l st).stops := by
  intro l
  induction l with
  | nil =>
    intro st h0 h1
    rw [tripCostWalk] at h1
    rw [h0] at h1
    exact absurd h1 (by simp)
  | cons station rest ih =>
    intro st h0
    simp only [tripCostWalk]
    split
    · split
      · exact ih st h0
      · split
        next hbreak =>
          intro _
          simp only [projectedArrival, List.getLast?_concat]
          exact hbreak
        next hbreak => exact ih _ h0
    · exact ih st h0

/-- C3 counterexample: with no stations along the route (empty catalog),
battery 10%, range 100 km and a 100 km trip (120 km estimated road distance),
`calculateTripCost` marks charging as required, emits zero stops, and the
battery projected at the destination is −110% — far below the 15% arrival
floor — without any fallback path being taken (the trip-cost planner has
none). -/
theorem arrival_floor_counterexample :
    (calculateTripCost lineDist ([] : List (Station ℚ)) 0 100 10 100 60
        .individual).needs_charging = true ∧
    (calculateTripCost lineDist ([] : List (Station ℚ)) 0 100 10 100 60
        .individual).charging_stops = [] ∧
    projectedArrival 10 (100 / 100) (estimatedRoadKm lineDist 0 100)
      (calculateTripCost lineDist ([] : List (Station ℚ)) 0 100 10 100 60
        .individual).charging_stops < 15 := by
  with_unfolding_all decide

/-- C3 amended: the 15% arrival floor is guaranteed exactly when the stop walk
of `calculateTripCost` terminated through its early exit (`reachedFloor`);
when the candidate list is exhausted without reaching the floor — including
when it is empty — the plan may project below 15% and no fallback is
applied. -/
theorem arrival_floor_when_walk_breaks {P : Type} (d : P → P → ℚ)
    (catalog : List (Station P)) (origin destination : P)
    (battery range cap : ℚ) (tier : UserTier)
    (h : (calculateTripCost d catalog origin destination battery range cap
      tier).reachedFloor = true) :
    15 ≤ projectedArrival battery (100 / range) (estimatedRoadKm d origin destination)
      (calculateTripCost d catalog origin destination battery range cap
        tier).charging_stops := by
  have hs : (calculateTripCost d catalog origin destination battery range cap
      tier).charging_stops
      = (tripCostFinalState d catalog origin destination battery range cap tier).stops := rfl
  have hr : (calculateTripCost d catalog origin destination battery range cap
      tier).reachedFloor
      = (tripCostFinalState d catalog origin destination battery range cap
        tier).reachedFloor := rfl
  rw [hs]
  rw [hr] at h
  unfold tripCostFinalState at h ⊢
  split at h
  next hcond =>
    rw [if_pos hcond]
    exact tripCostWalk_arrival_floor battery cap tier (estimatedRoadKm d origin destination)
      (100 / range) (tripCostCandidates d catalog origin destination)
      ⟨battery, [], 0, 0, false⟩ rfl h
  next hcond =>
    exact absurd h (by simp)

/-- Witness for C3's amended theorem: a slow-charger station 90 km along a
100 km trip with battery 50% — the walk charges to 50% there, projects 20% at
arrival and breaks, so the floor holds. -/
theorem arrival_floor_when_walk_breaks_witness :
    (calculateTripCost lineDist [stationAt90] 0 100 50 100 60
        .individual).reachedFloor = true ∧
    15 ≤ projectedArrival 50 (100 / 100) (estimatedRoadKm lineDist 0 100)
      (calculateTripCost lineDist [stationAt90] 0 100 50 100 60
        .individual).charging_stops :=
  ⟨by with_unfolding_all decide,
    arrival_floor_when_walk_breaks lineDist [stationAt90] 0 100 50 100 60 .individual
      (by with_unfolding_all decide)⟩

/-- C8 counterexample: the greedy walk of `findChargingStops` (battery 30%,
range 100 km, 30 km trip, stations 5 km and 20 km along the line) places one
stop at the 5 km station charged to a flat 80%, while
min(80%, battery-needed-for-the-remaining-leg + 20%) there is
min(80, 25 + 20) = 45 — the claimed target formula does not hold for this
planner's stops. -/
theorem greedy_stop_target_counterexample :
    (findChargingStops lineDist [stationAt5, stationAt20] 0 30 30 100 false).stops
      = [neededStop ⟨stationAt5, 5, 0, 1, false⟩] ∧
    (neededStop (⟨stationAt5, 5, 0, 1, false⟩ : RouteStation ℚ)).chargeToPercent = 80 ∧
    min 80 (lineDist 5 30 / 100 * 100 + 20) = 45 ∧ (80 : ℚ) ≠ 45 := by
  with_unfolding_all decide

/-- Loop invariant for the trip-cost stop walk: every stop it pushes records
the charge target min(80, battery-for-remaining-leg + 20) computed at its own
distance from the origin. -/
theorem tripCostWalk_stop_targets {P : Type} (startB cap : ℚ) (tier : UserTier)
    (totalKm bpk : ℚ) :
    ∀ (l : List (CostRouteStation P)) (st : TripCostState),
      (∀ s ∈ st.stops, s.to_percent
        = min 80 ((totalKm - s.distance_from_origin_km) * bpk + 20)) →
      ∀ s ∈ (tripCostWalk startB cap tier totalKm bpk l st).stops,
        s.to_percent = min 80 ((totalKm - s.distance_from_origin_km) * bpk + 20) := by
  intro l
  induction l with
  | nil =>
    intro st hst
    rw [tripCostWalk]
    exact hst
  | cons station rest ih =>
    intro st hst
    simp only [tripCostWalk]
    split
    · split
      · exact ih st hst
      · split
        next hbreak =>
          intro s hs
          simp only [TripCostState.stops] at hs
          rcases List.mem_append.mp hs with hs | hs
          · exact hst s hs
          · rw [List.mem_singleton.mp hs]
        next hbreak =>
          refine ih _ ?_
          intro s hs
          simp only [TripCostState.stops] at hs
          rcases List.mem_append.mp hs with hs | hs
          · exact hst s hs
          · rw [List.mem_singleton.mp hs]
    · exact ih st hst

/-- C8 amended: the min(80%, battery-needed-for-the-remaining-leg + 20%)
charge target holds for every stop placed by the trip-cost planner
`calculateTripCost` (where the remaining leg is measured from the stop's
distance-from-origin against the estimated road distance); the route planner
`findChargingStops`, by contrast, charges every stop to a flat 80%. -/
theorem tripcost_stop_target_formula {P : Type} (d : P → P → ℚ)
    (catalog : List (Station P)) (origin destination : P)
    (battery range cap : ℚ) (tier : UserTier) (s : TripStop)
    (hs : s ∈ (calculateTripCost d catalog origin destination battery range cap
      tier).charging_stops) :
    s.to_percent = min 80 ((estimatedRoadKm d origin destination
      - s.distance_from_origin_km) * (100 / range) + 20) := by
  have hst : (calculateTripCost d catalog origin destination battery range cap
      tier).charging_stops
      = (tripCostFinalState d catalog origin destination battery range cap tier).stops := rfl
  rw [hst] at hs
  unfold tripCostFinalState at hs
  split at hs
  next hcond =>
    exact tripCostWalk_stop_targets battery cap tier (estimatedRoadKm d origin destination)
      (100 / range) (tripCostCandidates d catalog origin destination)
      ⟨battery, [], 0, 0, false⟩ (by intro t ht; exact absurd ht (List.not_mem_nil t)) s hs
  next hcond =>
    exact absurd hs (List.not_mem_nil s)

/-- Witness for C8's amended theorem: the single stop of the trip-cost run
with one station 90 km along a 100 km trip (road distance 120 km) is charged
to 50 = min(80, 30 + 20). -/
theorem tripcost_stop_target_witness :
    (⟨90, 0, -40, 50, .slow, 29, 4320⟩ : TripStop)
      ∈ (calculateTripCost lineDist [stationAt90] 0 100 50 100 60
        .individual).charging_stops ∧
    (⟨90, 0, -40, 50, .slow, 29, 4320⟩ : TripStop).to_percent
      = min 80 ((estimatedRoadKm lineDist 0 100
        - (⟨90, 0, -40, 50, .slow, 29, 4320⟩ : TripStop).distance_from_origin_km)
          * (100 / 100) + 20) :=
  have hlist : (calculateTripCost lineDist [stationAt90] 0 100 50 100 60
      .individual).charging_stops = [⟨90, 0, -40, 50, .slow, 29, 4320⟩] := by
    with_unfolding_all rfl
  ⟨by rw [hlist]; exact List.mem_singleton_self _,
    tripcost_stop_target_formula lineDist [stationAt90] 0 100 50 100 60 .individual
      ⟨90, 0, -40, 50, .slow, 29, 4320⟩
      (by rw [hlist]; exact List.mem_singleton_self _)⟩

/-- Ratio-times-100 scores (availability, amenity match) lie in [0,100] when
the numerator counts a sublist of what the denominator counts. -/
theorem ratio_score_bounds {a b : ℕ} (hab : a ≤ b) (hb : 0 < b) :
    0 ≤ ((a : ℚ) / (b : ℚ)) * 100 ∧ ((a : ℚ) / (b : ℚ)) * 100 ≤ 100 := by
  have hbq : (0 : ℚ) < (b : ℚ) := by exact_mod_cast hb
  constructor
  · positivity
  · have h1 : (a : ℚ) / (b : ℚ) ≤ 1 := (div_le_one hbq).mpr (by exact_mod_cast hab)
    nlinarith

/-- Every score component produced by `scoreComponentsOf` lies in [0,100],
given a nonnegative distance (haversine is nonnegative) and a nonnegative
average wait time. -/
theorem scoreComponents_bounds {P : Type} (d : P → P → ℚ) (station : Station P)
    (loc : P) (prefs : ScorePrefs)
    (hdist : 0 ≤ d loc station.location) (hwait : 0 ≤ station.avg_wait_time) :
    (0 ≤ (scoreComponentsOf d station loc prefs).distance ∧
      (scoreComponentsOf d station loc prefs).distance ≤ 100) ∧
    (0 ≤ (scoreComponentsOf d station loc prefs).availability ∧
      (scoreComponentsOf d station loc prefs).availability ≤ 100) ∧
    (0 ≤ (scoreComponentsOf d station loc prefs).waitTime ∧
      (scoreComponentsOf d station loc prefs).waitTime ≤ 100) ∧
    (0 ≤ (scoreComponentsOf d station loc prefs).chargerKind ∧
      (scoreComponentsOf d station loc prefs).chargerKind ≤ 100) ∧
    (0 ≤ (scoreComponentsOf d station loc prefs).amenities ∧
      (scoreComponentsOf d station loc prefs).amenities ≤ 100) := by
  refine ⟨?_, ?_, ?_, ?_, ?_⟩ <;> unfold scoreComponentsOf <;> dsimp only
  · exact ⟨le_max_left _ _, max_le (by norm_num) (by nlinarith)⟩
  · split_ifs with h
    · exact ratio_score_bounds (List.length_filter_le _ _)
        (lt_of_lt_of_le h (List.length_filter_le _ _))
    · norm_num
  · exact ⟨le_max_left _ _, max_le (by norm_num) (by nlinarith)⟩
  · split_ifs <;> norm_num
  · split_ifs with h
    · exact ratio_score_bounds (List.length_filter_le _ _) h
    · norm_num

/-- C10: for every station and user location/preference input (with the
haversine distance and the catalog wait time nonnegative), the rounded total
score returned by `calculateStationScore` lies in [0,100]: each of the five
components is within [0,100] and the urgency weights are nonnegative and sum
to 1. -/
theorem station_score_in_range {P : Type} (d : P → P → ℚ) (station : Station P)
    (loc : P) (prefs : ScorePrefs)
    (hdist : 0 ≤ d loc station.location) (hwait : 0 ≤ station.avg_wait_time) :
    0 ≤ (calculateStationScore d station loc prefs).score ∧
      (calculateStationScore d station loc prefs).score ≤ 100 := by
  have hscore : (calculateStationScore d station loc prefs).score
      = jsRound (weightedTotal (urgencyWeights prefs.urgency)
        (scoreComponentsOf d station loc prefs)) := rfl
  obtain ⟨⟨hd0, hd1⟩, ⟨ha0, ha1⟩, ⟨hw0, hw1⟩, ⟨hc0, hc1⟩, ⟨hm0, hm1⟩⟩ :=
    scoreComponents_bounds d station loc prefs hdist hwait
  have htot : 0 ≤ weightedTotal (urgencyWeights prefs.urgency)
        (scoreComponentsOf d station loc prefs) ∧
      weightedTotal (urgencyWeights prefs.urgency)
        (scoreComponentsOf d station loc prefs) ≤ 100 := by
    cases prefs.urgency <;>
      exact ⟨by unfold weightedTotal urgencyWeights; linarith,
        by unfold weightedTotal urgencyWeights; linarith⟩
  exact ⟨hscore ▸ jsRound_nonneg htot.1, hscore ▸ jsRound_le_hundred htot.2⟩

/-- Witness for C10 at a concrete station (12 km away, one available slow
charger, zero wait): the score is within [0,100]. -/
theorem station_score_in_range_witness :
    0 ≤ lineDist 0 stationAt12.location ∧ 0 ≤ stationAt12.avg_wait_time ∧
    0 ≤ (calculateStationScore lineDist stationAt12 0 normalPrefs).score ∧
      (calculateStationScore lineDist stationAt12 0 normalPrefs).score ≤ 100 :=
  ⟨by with_unfolding_all decide, by with_unfolding_all decide,
    station_score_in_range lineDist stationAt12 0 normalPrefs
      (by with_unfolding_all decide) (by with_unfolding_all decide)⟩

end CopecEV
